import Mathlib

/-!
Verification development for the Musica script segment extractor and its
durable job pipeline (repository `musica_aitranslator`).

The definitions below are a shallow embedding of the Rust sources:
  * `src/storage.rs`  — segment models, builders, merge/build algorithm,
    store connection and table creation;
  * `src/parser.rs`   — the rule-polymorphic tree walk (`MusicaParse`),
    `parse_file` and `parser_main`;
  * `src/jobs.rs`     — the job payloads and `dispatch_main`.

Fallible Rust code (`anyhow::Result`) is embedded as `Except PError`.
Database inserts and queue pushes are embedded as explicit effect traces
(lists of operations / jobs), since the storage engine and queue backend
are external collaborators; the order of the trace mirrors the order of
the `await`ed calls in the source.
-/

/-- Error kinds produced by the embedded code, one constructor per
`bail!` / fallible call site in the source. -/
inductive PError where
  /-- `merge_exclusive`: "Conflict when merging field ..." (storage.rs). -/
  | mergeConflict (filed : String)
  /-- cross-variant combine / wrong builder variant in `IMessage::parse`. -/
  | typeMismatch (msg : String)
  /-- derive_builder `build()`: uninitialized mandatory field. -/
  | buildError (filed : String)
  /-- `str::parse::<i32>` failure in `MessageNumber::parse`. -/
  | intParseError (s : String)
  /-- `IntoAnyResult::into_any_result` on `None` (utils.rs). -/
  | optionNone
  /-- grammar rejected the input text. -/
  | parseError (msg : String)
deriving DecidableEq, Repr

/-- Finalized message segment (`IMessageModel` in storage.rs). -/
structure IMessageModel where
  line : Int
  id : Int
  name : String
  tachie : String
  content : String
deriving DecidableEq, Repr

/-- Finalized non-message segment (`INonMessageModel` in storage.rs). -/
structure INonMessageModel where
  line : Int
  content : String
deriving DecidableEq, Repr

/-- Tagged finalized segment (`InsertModel` in storage.rs). -/
inductive InsertModel where
  | IMessage (m : IMessageModel)
  | INonMessage (m : INonMessageModel)
deriving DecidableEq, Repr

/-- Partial message builder (derive_builder's `IMessageModelBuilder`):
every field is an `Option`, all start unset. -/
structure IMessageModelBuilder where
  line : Option Int := none
  id : Option Int := none
  name : Option String := none
  tachie : Option String := none
  content : Option String := none
deriving DecidableEq, Repr

/-- Partial non-message builder (`INonMessageModelBuilder`). -/
structure INonMessageModelBuilder where
  line : Option Int := none
  content : Option String := none
deriving DecidableEq, Repr

/-- Tagged builder fragment (`InsertModelBuilder` in storage.rs). -/
inductive InsertModelBuilder where
  | IMessage (b : IMessageModelBuilder)
  | INonMessage (b : INonMessageModelBuilder)
deriving DecidableEq, Repr

/-- `merge_exclusive` from storage.rs: both sides set is a conflict,
otherwise take whichever side is set. -/
def merge_exclusive {T : Type} (a b : Option T) (filed : String) :
    Except PError (Option T) :=
  match a, b with
  | some _, some _ => .error (.mergeConflict filed)
  | some v, none => .ok (some v)
  | none, some v => .ok (some v)
  | none, none => .ok none

/-- derive_builder setter `line` (named `setLine` because the Lean field
accessor already uses the name `line`). -/
def IMessageModelBuilder.setLine (b : IMessageModelBuilder) (v : Int) :
    IMessageModelBuilder := { b with line := some v }

/-- derive_builder setter `id`. -/
def IMessageModelBuilder.setId (b : IMessageModelBuilder) (v : Int) :
    IMessageModelBuilder := { b with id := some v }

/-- derive_builder setter `name`. -/
def IMessageModelBuilder.setName (b : IMessageModelBuilder) (v : String) :
    IMessageModelBuilder := { b with name := some v }

/-- derive_builder setter `tachie`. -/
def IMessageModelBuilder.setTachie (b : IMessageModelBuilder) (v : String) :
    IMessageModelBuilder := { b with tachie := some v }

/-- derive_builder setter `content`. -/
def IMessageModelBuilder.setContent (b : IMessageModelBuilder) (v : String) :
    IMessageModelBuilder := { b with content := some v }

/-- derive_builder setter `line` for the non-message builder. -/
def INonMessageModelBuilder.setLine (b : INonMessageModelBuilder) (v : Int) :
    INonMessageModelBuilder := { b with line := some v }

/-- derive_builder setter `content` for the non-message builder. -/
def INonMessageModelBuilder.setContent (b : INonMessageModelBuilder)
    (v : String) : INonMessageModelBuilder := { b with content := some v }

/-- derive_builder `build()` for the message builder: mandatory fields
`line`, `id`, `content` (checked in declaration order, which is also the
order the generated struct literal evaluates them); `name` and `tachie`
default to the empty string. -/
def IMessageModelBuilder.build (self : IMessageModelBuilder) :
    Except PError IMessageModel :=
  match self.line with
  | none => .error (.buildError "line")
  | some line =>
    match self.id with
    | none => .error (.buildError "id")
    | some id =>
      match self.content with
      | none => .error (.buildError "content")
      | some content =>
        .ok { line := line, id := id, name := self.name.getD "",
              tachie := self.tachie.getD "", content := content }

/-- derive_builder `build()` for the non-message builder: mandatory fields
`line` and `content`. -/
def INonMessageModelBuilder.build (self : INonMessageModelBuilder) :
    Except PError INonMessageModel :=
  match self.line with
  | none => .error (.buildError "line")
  | some line =>
    match self.content with
    | none => .error (.buildError "content")
    | some content => .ok { line := line, content := content }

/-- `IMessageModelBuilder::combine` from storage.rs: a non-message
argument is a type mismatch; otherwise the five fields are merged with
`merge_exclusive` in declaration order, short-circuiting on the first
conflict (the `?` operator in the Rust struct literal). -/
def IMessageModelBuilder.combine (self : IMessageModelBuilder)
    (other : InsertModelBuilder) : Except PError IMessageModelBuilder :=
  match other with
  | .INonMessage _ =>
    .error (.typeMismatch
      "Cannot combine IMessageModelBuilder with INonMessageModelBuilder")
  | .IMessage other =>
    match merge_exclusive self.line other.line "line" with
    | .error e => .error e
    | .ok line =>
      match merge_exclusive self.id other.id "id" with
      | .error e => .error e
      | .ok id =>
        match merge_exclusive self.name other.name "name" with
        | .error e => .error e
        | .ok name =>
          match merge_exclusive self.tachie other.tachie "tachie" with
          | .error e => .error e
          | .ok tachie =>
            match merge_exclusive self.content other.content "content" with
            | .error e => .error e
            | .ok content =>
              .ok { line := line, id := id, name := name,
                    tachie := tachie, content := content }

/-- `INonMessageModelBuilder::combine` from storage.rs. -/
def INonMessageModelBuilder.combine (self : INonMessageModelBuilder)
    (other : InsertModelBuilder) : Except PError INonMessageModelBuilder :=
  match other with
  | .IMessage _ =>
    .error (.typeMismatch
      "Cannot combine INonMessageModelBuilder with IMessageModelBuilder")
  | .INonMessage other =>
    match merge_exclusive self.line other.line "line" with
    | .error e => .error e
    | .ok line =>
      match merge_exclusive self.content other.content "content" with
      | .error e => .error e
      | .ok content => .ok { line := line, content := content }

/-- `InsertModelBuilder::new_message`. -/
def InsertModelBuilder.new_message : IMessageModelBuilder := {}

/-- `InsertModelBuilder::new_non_message`. -/
def InsertModelBuilder.new_non_message : INonMessageModelBuilder := {}

/-- `InsertModelBuilder::combine`: dispatch on the left variant and
re-wrap the combined builder (the `.into()` calls in the source). -/
def InsertModelBuilder.combine (self other : InsertModelBuilder) :
    Except PError InsertModelBuilder :=
  match self with
  | .IMessage b => (b.combine other).map .IMessage
  | .INonMessage b => (b.combine other).map .INonMessage

/-- Rule kinds of the Musica grammar, one constructor per `Rule` variant
with a `MusicaParse` handler in parser.rs. -/
inductive Rule where
  | EOI
  | ASCII_PRINTABLE
  | CJ_CHARACTERS
  | CJ_PUNCTUATION
  | CJ_HALF_FULL_WIDTH
  | CJ_SEPARATOR
  | CJ_LEFT_CORNER_BRACKET
  | CJ_RIGHT_CORNER_BRACKET
  | CJ_PUNCTUATION_WITHOUT_CORNER_BRACKET
  | MUSICA_COMMAND
  | MUSICA_PREPROC
  | MUSICA_COMMENT
  | IMusicaScript
  | IComment
  | IInclude
  | IMessage
  | IMessageNamed
  | IMessageUnnamed
  | MessageNumber
  | MessageSpeakerName
  | MessageSpeakerTachie
  | MessageContentQuoted
  | MessageContentUnquoted
  | INonMessage
  | Musica
deriving DecidableEq, Repr

mutual
/-- A pest `Pair`: rule-kind tag, matched text span (`as_str`), and ordered
children (`into_inner`). Mutually inductive with `AstList` so the walk can
recurse structurally. -/
inductive AstNode where
  | mk (rule : Rule) (text : String) (children : AstList)

/-- Ordered child sequence of an `AstNode`. -/
inductive AstList where
  | nil
  | cons (head : AstNode) (tail : AstList)
end

/-- Rule tag of a node (`Pair::as_rule`). -/
def AstNode.rule : AstNode → Rule
  | .mk r _ _ => r

/-- Matched text of a node (`Pair::as_str`). -/
def AstNode.text : AstNode → String
  | .mk _ t _ => t

/-- Children of a node (`Pair::into_inner`). -/
def AstNode.children : AstNode → AstList
  | .mk _ _ c => c

/-- `str::parse::<i32>` as used by `MessageNumber::parse`: optional sign,
one or more decimal digits, rejecting overflow past the i32 range. -/
def parseI32 (s : String) : Except PError Int :=
  let digits : List Char → Option Nat := fun cs =>
    if cs.isEmpty then none
    else if cs.all Char.isDigit then
      some (cs.foldl (fun acc c => acc * 10 + (c.toNat - 48)) 0)
    else none
  let signed : Option Int :=
    match s.data with
    | '-' :: rest => (digits rest).map (fun n => -(n : Int))
    | '+' :: rest => (digits rest).map (fun n => (n : Int))
    | cs => (digits cs).map (fun n => (n : Int))
  match signed with
  | none => .error (.intParseError s)
  | some n =>
    if n < -(2 ^ 31) ∨ (2 ^ 31 : Int) ≤ n then .error (.intParseError s)
    else .ok n

mutual
/-- The rule-polymorphic tree walk `MusicaParse::parse` from parser.rs,
dispatched on the node's own rule tag. The result pairs the handler's
`ParserResult<Option<TextSegmentBuilder>>` with the trace of segment
inserts performed (inserts already awaited stay in the trace even when a
later step errors, mirroring the incremental persistence of the source). -/
def MusicaParse.parse : AstNode → Int → Except PError (Option InsertModelBuilder) × List InsertModel
  | .mk rule text children, line =>
    match rule with
    | .IComment => MusicaParse.nonMessageNode text line
    | .IInclude => MusicaParse.nonMessageNode text line
    | .INonMessage => MusicaParse.nonMessageNode text line
    | .IMessage =>
      match children with
      | .nil => (.ok none, [])
      | .cons child _ =>
        match MusicaParse.parse child line with
        | (.error e, tr) => (.error e, tr)
        | (.ok none, tr) => (.error .optionNone, tr)
        | (.ok (some (.INonMessage _)), tr) =>
          (.error (.typeMismatch
            "Expected IMessageBuilder, found INonMessageBuilder"), tr)
        | (.ok (some (.IMessage b)), tr) =>
          match b.build with
          | .error e => (.error e, tr)
          | .ok m => (.ok none, tr ++ [.IMessage m])
    | .IMessageNamed =>
      match MusicaParse.messageChildren children line
          (InsertModelBuilder.new_message.setLine line) with
      | (.error e, tr) => (.error e, tr)
      | (.ok b, tr) => (.ok (some (.IMessage b)), tr)
    | .IMessageUnnamed =>
      match MusicaParse.messageChildren children line
          (InsertModelBuilder.new_message.setLine line) with
      | (.error e, tr) => (.error e, tr)
      | (.ok b, tr) => (.ok (some (.IMessage b)), tr)
    | .MessageNumber =>
      match parseI32 text with
      | .error e => (.error e, [])
      | .ok n => (.ok (some (.IMessage (InsertModelBuilder.new_message.setId n))), [])
    | .MessageSpeakerName =>
      (.ok (some (.IMessage (InsertModelBuilder.new_message.setName text))), [])
    | .MessageSpeakerTachie =>
      (.ok (some (.IMessage (InsertModelBuilder.new_message.setTachie text))), [])
    | .MessageContentQuoted =>
      (.ok (some (.IMessage (InsertModelBuilder.new_message.setContent text))), [])
    | .MessageContentUnquoted =>
      (.ok (some (.IMessage (InsertModelBuilder.new_message.setContent text))), [])
    | .Musica => MusicaParse.musicaChildren children line
    | _ => (.ok none, [])

/-- The shared body of the `non_message_node!` macro handlers (`IComment`,
`IInclude`, `INonMessage`): build a non-message segment from the current
line and the node text, insert it, and return no fragment. -/
def MusicaParse.nonMessageNode (text : String) (line : Int) :
    Except PError (Option InsertModelBuilder) × List InsertModel :=
  match ((InsertModelBuilder.new_non_message.setLine line).setContent text).build with
  | .error e => (.error e, [])
  | .ok m => (.ok none, [.INonMessage m])

/-- The child loop of `Musica::parse`: dispatch each top-level child at
the current line, force its optional result through `into_any_result()?`
(erroring on `None`), then advance the line counter by one. -/
def MusicaParse.musicaChildren : AstList → Int → Except PError (Option InsertModelBuilder) × List InsertModel
  | .nil, _ => (.ok none, [])
  | .cons c cs, line =>
    match MusicaParse.parse c line with
    | (.error e, tr) => (.error e, tr)
    | (.ok none, tr) => (.error .optionNone, tr)
    | (.ok (some _), tr) =>
      match MusicaParse.musicaChildren cs (line + 1) with
      | (r, tr2) => (r, tr ++ tr2)

/-- The child loop of `IMessageNamed::parse` / `IMessageUnnamed::parse`:
dispatch each child, force its optional fragment through
`into_any_result()?`, and `combine` it into the accumulating builder. -/
def MusicaParse.messageChildren : AstList → Int → IMessageModelBuilder → Except PError IMessageModelBuilder × List InsertModel
  | .nil, _, b => (.ok b, [])
  | .cons c cs, line, b =>
    match MusicaParse.parse c line with
    | (.error e, tr) => (.error e, tr)
    | (.ok none, tr) => (.error .optionNone, tr)
    | (.ok (some frag), tr) =>
      match b.combine frag with
      | .error e => (.error e, tr)
      | .ok b2 =>
        match MusicaParse.messageChildren cs line b2 with
        | (r, tr2) => (r, tr ++ tr2)
end

/-- Effects issued against a file's Segment Store (the sea_orm database
connection in the source), in the order they are awaited. -/
inductive StoreOp where
  /-- `create_db_connection(name)`: open/create the per-file store. -/
  | openStore (name : String)
  /-- `create_table(db)`: idempotent schema provisioning
  (`create_table_from_entity(...).if_not_exists()` in storage.rs). -/
  | ensureSchema (name : String)
  /-- `InsertModel::into_active_model().insert(db)`. -/
  | insert (m : InsertModel)
deriving DecidableEq, Repr

/-- `create_db_connection` from storage.rs, as its store-effect trace. -/
def create_db_connection (name : String) : List StoreOp :=
  [.openStore name]

/-- `create_table` from storage.rs, as its store-effect trace. It is
defined (and exported) by the source but never invoked by `parse_file`
or anything else under src/. -/
def create_table (name : String) : List StoreOp :=
  [.ensureSchema name]

/-- `parse_file(path, name)` from parser.rs. The grammar engine
(`MusicaParser::parse`, an external collaborator generated from the pest
grammar) is abstracted as the `ast` argument: the `Pairs` it produced for
the file's content, or the grammar failure. The function opens the store
connection, takes the first pair (`peek().into_any_result()?`), and
dispatches it at line 0; it never provisions the store schema. The second
component is the store-effect trace. -/
def parse_file (name : String) (ast : Except PError (List AstNode)) :
    Except PError Unit × List StoreOp :=
  let dbOps := create_db_connection name
  match ast with
  | .error e => (.error e, dbOps)
  | .ok pairs =>
    match pairs.head? with
    | none => (.error .optionNone, dbOps)
    | some root =>
      match MusicaParse.parse root 0 with
      | (.error e, tr) => (.error e, dbOps ++ tr.map .insert)
      | (.ok _, tr) => (.ok (), dbOps ++ tr.map .insert)

/-- `ParserJob` payload from jobs.rs. -/
structure ParserJob where
  file_path : String
  file_name : String
deriving DecidableEq, Repr

/-- `DispatchJob` payload from jobs.rs. -/
structure DispatchJob where
  file_path : String
  file_name : String
deriving DecidableEq, Repr

/-- `AnalyzerJob` payload from jobs.rs. -/
structure AnalyzerJob where
  file_path : String
  file_name : String
deriving DecidableEq, Repr

/-- `TranslatorJob` payload from jobs.rs. -/
structure TranslatorJob where
  file_path : String
  file_name : String
deriving DecidableEq, Repr

/-- `parser_main` from parser.rs: run `parse_file` on the job's file; on
success push exactly one `DispatchJob` with the same path and name onto
the dispatch queue; on failure propagate the error and push nothing.
Returns (handler result, store-effect trace, dispatch jobs pushed). -/
def parser_main (job : ParserJob) (ast : Except PError (List AstNode)) :
    Except PError Unit × List StoreOp × List DispatchJob :=
  match parse_file job.file_name ast with
  | (.error e, ops) => (.error e, ops, [])
  | (.ok _, ops) =>
    (.ok (), ops, [{ file_path := job.file_path, file_name := job.file_name }])

/-- `dispatch_main` from jobs.rs: push one `AnalyzerJob` and then one
`TranslatorJob`, both carrying the incoming job's path and name, onto the
respective queues (passed as their current contents), and succeed. -/
def dispatch_main (job : DispatchJob) (analyzer : List AnalyzerJob)
    (translator : List TranslatorJob) :
    Except PError Unit × List AnalyzerJob × List TranslatorJob :=
  (.ok (),
   analyzer ++ [{ file_path := job.file_path, file_name := job.file_name }],
   translator ++ [{ file_path := job.file_path, file_name := job.file_name }])

/-- Modelled from the spec: the pest grammar file `src/pest/musica.pest`
is not part of the provided sources, so the labeled syntax tree the
external grammar engine produces for the three-line end-to-end scenario
of §8 is reconstructed from §4.2 and §6: one top-level child per script
line — a comment, an include, and a message wrapping a named sub-form
whose atoms are the numeric id, speaker name, tachie tag and quoted
content. -/
def scenarioTree : AstNode :=
  .mk .Musica ";Hello comment\n#include other.sc\n1 Alice [happy] \"Hi there\""
    (.cons (.mk .IComment ";Hello comment" .nil)
      (.cons (.mk .IInclude "#include other.sc" .nil)
        (.cons (.mk .IMessage "1 Alice [happy] \"Hi there\""
          (.cons (.mk .IMessageNamed "1 Alice [happy] \"Hi there\""
            (.cons (.mk .MessageNumber "1" .nil)
              (.cons (.mk .MessageSpeakerName "Alice" .nil)
                (.cons (.mk .MessageSpeakerTachie "happy" .nil)
                  (.cons (.mk .MessageContentQuoted "Hi there" .nil)
                    .nil))))) .nil)) .nil)))

/-- Modelled from the spec: a root node with two comment lines, the
minimal grammar output exercising the top-level line counter. -/
def twoCommentTree : AstNode :=
  .mk .Musica ";a\n;b"
    (.cons (.mk .IComment ";a" .nil)
      (.cons (.mk .IComment ";b" .nil) .nil))

/-- Modelled from the spec: the §8 failure scenario — a message line
whose numeric id atom is missing, wrapped in a one-line script. -/
def missingIdTree : AstNode :=
  .mk .Musica "Alice [happy] \"Hi there\""
    (.cons (.mk .IMessage "Alice [happy] \"Hi there\""
      (.cons (.mk .IMessageNamed "Alice [happy] \"Hi there\""
        (.cons (.mk .MessageSpeakerName "Alice" .nil)
          (.cons (.mk .MessageSpeakerTachie "happy" .nil)
            (.cons (.mk .MessageContentQuoted "Hi there" .nil) .nil))))
      .nil)) .nil)

/-- Specification-side view of the merge rule (§4.3): the fields both
fragments set, listed in the builder's field-declaration order. -/
def msgConflicts (a b : IMessageModelBuilder) : List String :=
  (if a.line.isSome && b.line.isSome then ["line"] else []) ++
  (if a.id.isSome && b.id.isSome then ["id"] else []) ++
  (if a.name.isSome && b.name.isSome then ["name"] else []) ++
  (if a.tachie.isSome && b.tachie.isSome then ["tachie"] else []) ++
  (if a.content.isSome && b.content.isSome then ["content"] else [])

/-- Specification-side view of the merge result on non-conflicting
fragments: per field, whichever side is set (the union of the two
fragments' fields). -/
def msgUnion (a b : IMessageModelBuilder) : IMessageModelBuilder :=
  { line := a.line.or b.line, id := a.id.or b.id, name := a.name.or b.name,
    tachie := a.tachie.or b.tachie, content := a.content.or b.content }

/-- Same as `msgConflicts` for the non-message builder. -/
def nonMsgConflicts (a b : INonMessageModelBuilder) : List String :=
  (if a.line.isSome && b.line.isSome then ["line"] else []) ++
  (if a.content.isSome && b.content.isSome then ["content"] else [])

/-- Same as `msgUnion` for the non-message builder. -/
def nonMsgUnion (a b : INonMessageModelBuilder) : INonMessageModelBuilder :=
  { line := a.line.or b.line, content := a.content.or b.content }

/-- Whether two fragments are of the same variant. -/
def sameVariant : InsertModelBuilder → InsertModelBuilder → Bool
  | .IMessage _, .IMessage _ => true
  | .INonMessage _, .INonMessage _ => true
  | _, _ => false

/-- Conflicting fields of two fragments of the same variant (empty list
on a variant mismatch, where per-field conflicts are not defined). -/
def builderConflicts : InsertModelBuilder → InsertModelBuilder → List String
  | .IMessage a, .IMessage b => msgConflicts a b
  | .INonMessage a, .INonMessage b => nonMsgConflicts a b
  | _, _ => []

theorem imsg_combine_eq (a b : IMessageModelBuilder) :
    a.combine (.IMessage b) =
      (match msgConflicts a b with
       | [] => .ok (msgUnion a b)
       | f :: _ => .error (.mergeConflict f)) := by
  rcases a with ⟨l1, i1, n1, t1, c1⟩
  rcases b with ⟨l2, i2, n2, t2, c2⟩
  cases l1 <;> cases l2 <;> cases i1 <;> cases i2 <;> cases n1 <;> cases n2 <;>
    cases t1 <;> cases t2 <;> cases c1 <;> cases c2 <;>
    simp [IMessageModelBuilder.combine, merge_exclusive, msgConflicts,
      msgUnion, Option.or]

theorem inonmsg_combine_eq (a b : INonMessageModelBuilder) :
    a.combine (.INonMessage b) =
      (match nonMsgConflicts a b with
       | [] => .ok (nonMsgUnion a b)
       | f :: _ => .error (.mergeConflict f)) := by
  rcases a with ⟨l1, c1⟩
  rcases b with ⟨l2, c2⟩
  cases l1 <;> cases l2 <;> cases c1 <;> cases c2 <;>
    simp [INonMessageModelBuilder.combine, merge_exclusive, nonMsgConflicts,
      nonMsgUnion, Option.or]

theorem opt_or_comm_of_nc {α : Type} (x y : Option α)
    (h : (x.isSome && y.isSome) = false) : x.or y = y.or x := by
  cases x <;> cases y <;> simp_all [Option.or]

theorem opt_or_assoc {α : Type} (x y z : Option α) :
    (x.or y).or z = x.or (y.or z) := by
  cases x <;> cases y <;> cases z <;> simp [Option.or]

theorem opt_or_nc_left {α : Type} (x y z : Option α)
    (hxz : (x.isSome && z.isSome) = false)
    (hyz : (y.isSome && z.isSome) = false) :
    ((x.or y).isSome && z.isSome) = false := by
  cases x <;> cases y <;> cases z <;> simp_all [Option.or]

theorem opt_or_nc_right {α : Type} (x y z : Option α)
    (hxy : (x.isSome && y.isSome) = false)
    (hxz : (x.isSome && z.isSome) = false) :
    (x.isSome && (y.or z).isSome) = false := by
  cases x <;> cases y <;> cases z <;> simp_all [Option.or]

theorem ite_singleton_eq_nil (c : Bool) (s : String) :
    ((if c then [s] else []) = ([] : List String)) ↔ c = false := by
  cases c <;> simp

theorem msgConflicts_eq_nil_iff (a b : IMessageModelBuilder) :
    msgConflicts a b = [] ↔
      ((a.line.isSome && b.line.isSome) = false ∧
       (a.id.isSome && b.id.isSome) = false ∧
       (a.name.isSome && b.name.isSome) = false ∧
       (a.tachie.isSome && b.tachie.isSome) = false ∧
       (a.content.isSome && b.content.isSome) = false) := by
  simp [msgConflicts, List.append_eq_nil, ite_singleton_eq_nil]

theorem nonMsgConflicts_eq_nil_iff (a b : INonMessageModelBuilder) :
    nonMsgConflicts a b = [] ↔
      ((a.line.isSome && b.line.isSome) = false ∧
       (a.content.isSome && b.content.isSome) = false) := by
  simp [nonMsgConflicts, List.append_eq_nil, ite_singleton_eq_nil]

theorem msgConflicts_comm (a b : IMessageModelBuilder) :
    msgConflicts a b = msgConflicts b a := by
  simp [msgConflicts, Bool.and_comm]

theorem nonMsgConflicts_comm (a b : INonMessageModelBuilder) :
    nonMsgConflicts a b = nonMsgConflicts b a := by
  simp [nonMsgConflicts, Bool.and_comm]

theorem msgUnion_comm (a b : IMessageModelBuilder)
    (h : msgConflicts a b = []) : msgUnion a b = msgUnion b a := by
  rw [msgConflicts_eq_nil_iff] at h
  obtain ⟨h1, h2, h3, h4, h5⟩ := h
  unfold msgUnion
  rw [opt_or_comm_of_nc _ _ h1, opt_or_comm_of_nc _ _ h2,
    opt_or_comm_of_nc _ _ h3, opt_or_comm_of_nc _ _ h4,
    opt_or_comm_of_nc _ _ h5]

theorem nonMsgUnion_comm (a b : INonMessageModelBuilder)
    (h : nonMsgConflicts a b = []) : nonMsgUnion a b = nonMsgUnion b a := by
  rw [nonMsgConflicts_eq_nil_iff] at h
  obtain ⟨h1, h2⟩ := h
  unfold nonMsgUnion
  rw [opt_or_comm_of_nc _ _ h1, opt_or_comm_of_nc _ _ h2]

theorem msgUnion_assoc (a b c : IMessageModelBuilder) :
    msgUnion (msgUnion a b) c = msgUnion a (msgUnion b c) := by
  simp [msgUnion, opt_or_assoc]

theorem nonMsgUnion_assoc (a b c : INonMessageModelBuilder) :
    nonMsgUnion (nonMsgUnion a b) c = nonMsgUnion a (nonMsgUnion b c) := by
  simp [nonMsgUnion, opt_or_assoc]

theorem msgConflicts_union_left (a b c : IMessageModelBuilder)
    (hbc : msgConflicts b c = []) (hac : msgConflicts a c = []) :
    msgConflicts (msgUnion a b) c = [] := by
  rw [msgConflicts_eq_nil_iff] at hbc hac ⊢
  refine ⟨?_, ?_, ?_, ?_, ?_⟩ <;>
    exact opt_or_nc_left _ _ _ (by tauto) (by tauto)

theorem msgConflicts_union_right (a b c : IMessageModelBuilder)
    (hab : msgConflicts a b = []) (hac : msgConflicts a c = []) :
    msgConflicts a (msgUnion b c) = [] := by
  rw [msgConflicts_eq_nil_iff] at hab hac ⊢
  refine ⟨?_, ?_, ?_, ?_, ?_⟩ <;>
    exact opt_or_nc_right _ _ _ (by tauto) (by tauto)

theorem nonMsgConflicts_union_left (a b c : INonMessageModelBuilder)
    (hbc : nonMsgConflicts b c = []) (hac : nonMsgConflicts a c = []) :
    nonMsgConflicts (nonMsgUnion a b) c = [] := by
  rw [nonMsgConflicts_eq_nil_iff] at hbc hac ⊢
  refine ⟨?_, ?_⟩ <;> exact opt_or_nc_left _ _ _ (by tauto) (by tauto)

theorem nonMsgConflicts_union_right (a b c : INonMessageModelBuilder)
    (hab : nonMsgConflicts a b = []) (hac : nonMsgConflicts a c = []) :
    nonMsgConflicts a (nonMsgUnion b c) = [] := by
  rw [nonMsgConflicts_eq_nil_iff] at hab hac ⊢
  refine ⟨?_, ?_⟩ <;> exact opt_or_nc_right _ _ _ (by tauto) (by tauto)

/-- C3 (counterexample): the claim says that when both fragments set a
field, combine fails with a `MergeConflict` naming that field. Take two
message fragments that both set `line` and both set `id`: both set `id`,
yet the single error names `line`, not `id`. -/
theorem c3_merge_conflict_counterexample :
    ({ line := some 0, id := some 1 } : IMessageModelBuilder).id.isSome = true ∧
    ({ line := some 2, id := some 3 } : IMessageModelBuilder).id.isSome = true ∧
    IMessageModelBuilder.combine { line := some 0, id := some 1 }
      (.IMessage { line := some 2, id := some 3 }) =
      .error (.mergeConflict "line") ∧
    PError.mergeConflict "line" ≠ PError.mergeConflict "id" :=
  ⟨rfl, rfl, rfl, by decide⟩

/-- C3 (amended): per field, if exactly one side of a same-variant merge
sets it the combined builder takes that value, and if neither sets it the
field stays unset (the result on non-conflicting fragments is exactly the
union `msgUnion`/`nonMsgUnion`); if both sides set some field, combine
fails with a `MergeConflict` naming the earliest both-set field in
field-declaration order (`line`, `id`, `name`, `tachie`, `content` for
messages; `line`, `content` for non-messages). In particular combining
two fragments with disjoint field sets always succeeds and yields the
union of their fields. -/
theorem c3_merge_field_rule :
    (∀ a b : IMessageModelBuilder,
      a.combine (.IMessage b) =
        (match msgConflicts a b with
         | [] => .ok (msgUnion a b)
         | f :: _ => .error (.mergeConflict f))) ∧
    (∀ a b : INonMessageModelBuilder,
      a.combine (.INonMessage b) =
        (match nonMsgConflicts a b with
         | [] => .ok (nonMsgUnion a b)
         | f :: _ => .error (.mergeConflict f))) :=
  ⟨fun a b => imsg_combine_eq a b, fun a b => inonmsg_combine_eq a b⟩

/-- C4: over same-variant fragments, combine is commutative and, with
pairwise disjoint field sets, associative; and when two same-variant
fragments both set a field, combine fails in either argument order (with
the same `MergeConflict`, since conflict detection follows the fixed
field-declaration order). -/
theorem c4_combine_comm_assoc :
    (∀ a b c : InsertModelBuilder,
      sameVariant a b = true → sameVariant b c = true →
      builderConflicts a b = [] → builderConflicts b c = [] →
      builderConflicts a c = [] →
      InsertModelBuilder.combine a b = InsertModelBuilder.combine b a ∧
      (InsertModelBuilder.combine a b).bind
          (fun x => InsertModelBuilder.combine x c) =
        (InsertModelBuilder.combine b c).bind
          (fun y => InsertModelBuilder.combine a y)) ∧
    (∀ a b : InsertModelBuilder,
      sameVariant a b = true → builderConflicts a b ≠ [] →
      ∃ f, InsertModelBuilder.combine a b = .error (.mergeConflict f) ∧
        InsertModelBuilder.combine b a = .error (.mergeConflict f)) := by
  constructor
  · intro a b c hv1 hv2 h1 h2 h3
    cases a with
    | IMessage x =>
      cases b with
      | INonMessage y => simp [sameVariant] at hv1
      | IMessage y =>
        cases c with
        | INonMessage z => simp [sameVariant] at hv2
        | IMessage z =>
          simp only [builderConflicts] at h1 h2 h3
          have h1' : msgConflicts y x = [] := (msgConflicts_comm y x).trans h1
          have hl : msgConflicts (msgUnion x y) z = [] :=
            msgConflicts_union_left x y z h2 h3
          have hr : msgConflicts x (msgUnion y z) = [] :=
            msgConflicts_union_right x y z h1 h3
          constructor
          · simp only [InsertModelBuilder.combine, imsg_combine_eq, h1, h1']
            simp [Except.map, msgUnion_comm x y h1]
          · simp only [InsertModelBuilder.combine, imsg_combine_eq, h1, h2,
              Except.map, Except.bind, hl, hr]
            simp [msgUnion_assoc]
    | INonMessage x =>
      cases b with
      | IMessage y => simp [sameVariant] at hv1
      | INonMessage y =>
        cases c with
        | IMessage z => simp [sameVariant] at hv2
        | INonMessage z =>
          simp only [builderConflicts] at h1 h2 h3
          have h1' : nonMsgConflicts y x = [] :=
            (nonMsgConflicts_comm y x).trans h1
          have hl : nonMsgConflicts (nonMsgUnion x y) z = [] :=
            nonMsgConflicts_union_left x y z h2 h3
          have hr : nonMsgConflicts x (nonMsgUnion y z) = [] :=
            nonMsgConflicts_union_right x y z h1 h3
          constructor
          · simp only [InsertModelBuilder.combine, inonmsg_combine_eq, h1, h1']
            simp [Except.map, nonMsgUnion_comm x y h1]
          · simp only [InsertModelBuilder.combine, inonmsg_combine_eq, h1, h2,
              Except.map, Except.bind, hl, hr]
            simp [nonMsgUnion_assoc]
  · intro a b hv hne
    cases a with
    | IMessage x =>
      cases b with
      | INonMessage y => simp [sameVariant] at hv
      | IMessage y =>
        simp only [builderConflicts] at hne
        obtain ⟨f, l, hfl⟩ := List.exists_cons_of_ne_nil hne
        have hfl' : msgConflicts y x = f :: l :=
          (msgConflicts_comm y x).trans hfl
        exact ⟨f,
          by simp [InsertModelBuilder.combine, imsg_combine_eq, hfl, Except.map],
          by simp [InsertModelBuilder.combine, imsg_combine_eq, hfl', Except.map]⟩
    | INonMessage x =>
      cases b with
      | IMessage y => simp [sameVariant] at hv
      | INonMessage y =>
        simp only [builderConflicts] at hne
        obtain ⟨f, l, hfl⟩ := List.exists_cons_of_ne_nil hne
        have hfl' : nonMsgConflicts y x = f :: l :=
          (nonMsgConflicts_comm y x).trans hfl
        exact ⟨f,
          by simp [InsertModelBuilder.combine, inonmsg_combine_eq, hfl, Except.map],
          by simp [InsertModelBuilder.combine, inonmsg_combine_eq, hfl', Except.map]⟩

/-- C4 (witness): at three pairwise disjoint concrete message fragments,
combine commutes and associates, and at a concrete conflicting pair it
fails in both orders with the same field. -/
theorem c4_combine_comm_assoc_witness :
    (InsertModelBuilder.combine (.IMessage { line := some 0 })
        (.IMessage { id := some 1 }) =
      InsertModelBuilder.combine (.IMessage { id := some 1 })
        (.IMessage { line := some 0 }) ∧
     (InsertModelBuilder.combine (.IMessage { line := some 0 })
        (.IMessage { id := some 1 })).bind
        (fun x => InsertModelBuilder.combine x (.IMessage { content := some "Hi" })) =
      (InsertModelBuilder.combine (.IMessage { id := some 1 })
        (.IMessage { content := some "Hi" })).bind
        (fun y => InsertModelBuilder.combine (.IMessage { line := some 0 }) y)) ∧
    (∃ f, InsertModelBuilder.combine (.IMessage { line := some 0 })
        (.IMessage { line := some 7 }) = .error (.mergeConflict f) ∧
      InsertModelBuilder.combine (.IMessage { line := some 7 })
        (.IMessage { line := some 0 }) = .error (.mergeConflict f)) :=
  ⟨c4_combine_comm_assoc.1 (.IMessage { line := some 0 })
      (.IMessage { id := some 1 }) (.IMessage { content := some "Hi" })
      rfl rfl (by decide) (by decide) (by decide),
   c4_combine_comm_assoc.2 (.IMessage { line := some 0 })
      (.IMessage { line := some 7 }) rfl (by decide)⟩

/-- C5: combining a message fragment with a non-message fragment fails
with a `TypeMismatch` in both argument orders, at both the per-variant
`combine` methods and the `InsertModelBuilder::combine` wrapper; the
error carries no field data, so nothing is transferred. -/
theorem c5_variant_mismatch :
    ∀ (m : IMessageModelBuilder) (n : INonMessageModelBuilder),
    m.combine (.INonMessage n) = .error (.typeMismatch
      "Cannot combine IMessageModelBuilder with INonMessageModelBuilder") ∧
    n.combine (.IMessage m) = .error (.typeMismatch
      "Cannot combine INonMessageModelBuilder with IMessageModelBuilder") ∧
    InsertModelBuilder.combine (.IMessage m) (.INonMessage n) =
      .error (.typeMismatch
        "Cannot combine IMessageModelBuilder with INonMessageModelBuilder") ∧
    InsertModelBuilder.combine (.INonMessage n) (.IMessage m) =
      .error (.typeMismatch
        "Cannot combine INonMessageModelBuilder with IMessageModelBuilder") :=
  fun _ _ => ⟨rfl, rfl, rfl, rfl⟩

/-- C6: finalizing a message builder fails with a `BuildError` whenever
`line`, `id` or `content` is unset (a non-message builder whenever `line`
or `content` is unset); with all mandatory fields set, build succeeds and
unset `speaker_name`/`speaker_tachie` default to the empty string. -/
theorem c6_build_mandatory_fields :
    (∀ b : IMessageModelBuilder,
      (b.line = none ∨ b.id = none ∨ b.content = none →
        ∃ f, b.build = .error (.buildError f)) ∧
      (∀ l i c, b.line = some l → b.id = some i → b.content = some c →
        b.build = .ok { line := l, id := i, name := b.name.getD "",
                        tachie := b.tachie.getD "", content := c })) ∧
    (∀ b : INonMessageModelBuilder,
      (b.line = none ∨ b.content = none →
        ∃ f, b.build = .error (.buildError f)) ∧
      (∀ l c, b.line = some l → b.content = some c →
        b.build = .ok { line := l, content := c })) := by
  constructor
  · intro b
    constructor
    · intro h
      rcases b with ⟨bl, bi, bn, bt, bc⟩
      cases bl with
      | none => exact ⟨"line", rfl⟩
      | some l =>
        cases bi with
        | none => exact ⟨"id", rfl⟩
        | some i =>
          cases bc with
          | none => exact ⟨"content", rfl⟩
          | some c => simp at h
    · intro l i c hl hi hc
      simp only [IMessageModelBuilder.build, hl, hi, hc]
  · intro b
    constructor
    · intro h
      rcases b with ⟨bl, bc⟩
      cases bl with
      | none => exact ⟨"line", rfl⟩
      | some l =>
        cases bc with
        | none => exact ⟨"content", rfl⟩
        | some c => simp at h
    · intro l c hl hc
      simp only [INonMessageModelBuilder.build, hl, hc]

/-- C6 (witness): a message builder with `line` and `content` set but no
`id` fails to build; after also setting `id` it builds, with the speaker
fields defaulted to the empty string. -/
theorem c6_build_mandatory_fields_witness :
    (∃ f, ({ line := some 2, content := some "Hi there" } :
        IMessageModelBuilder).build = .error (.buildError f)) ∧
    ({ line := some 2, id := some 1, content := some "Hi there" } :
        IMessageModelBuilder).build =
      .ok { line := 2, id := 1, name := "", tachie := "",
            content := "Hi there" } :=
  ⟨(c6_build_mandatory_fields.1
      { line := some 2, content := some "Hi there" }).1 (.inr (.inl rfl)),
   (c6_build_mandatory_fields.1
      { line := some 2, id := some 1, content := some "Hi there" }).2
      2 1 "Hi there" rfl rfl rfl⟩

/-- C1 (code divergence): on the three-line end-to-end scenario the claim
expects success with three persisted segments, but `Musica::parse` pipes
each top-level child's optional result through `into_any_result()?`,
which errors on `None` — and the comment handler returns `None` after its
insert. So `parse_file` persists only `NonMessage{line:0}` and then fails
with the option-unwrap error; the include and message lines are never
reached. -/
theorem c1_scenario_walk_aborts :
    parse_file "test.sc" (.ok [scenarioTree]) =
      (.error .optionNone,
       [.openStore "test.sc",
        .insert (.INonMessage { line := 0, content := ";Hello comment" })]) :=
  rfl

/-- Supporting fact: dispatched directly, each of the three scenario
lines does produce exactly the claimed segment at its line number — the
loss happens only in the top-level walk. -/
theorem scenario_lines_extract_individually :
    MusicaParse.parse (.mk .IComment ";Hello comment" .nil) 0 =
      (.ok none, [.INonMessage { line := 0, content := ";Hello comment" }]) ∧
    MusicaParse.parse (.mk .IInclude "#include other.sc" .nil) 1 =
      (.ok none, [.INonMessage { line := 1, content := "#include other.sc" }]) ∧
    MusicaParse.parse
      (.mk .IMessage "1 Alice [happy] \"Hi there\""
        (.cons (.mk .IMessageNamed "1 Alice [happy] \"Hi there\""
          (.cons (.mk .MessageNumber "1" .nil)
            (.cons (.mk .MessageSpeakerName "Alice" .nil)
              (.cons (.mk .MessageSpeakerTachie "happy" .nil)
                (.cons (.mk .MessageContentQuoted "Hi there" .nil)
                  .nil))))) .nil)) 2 =
      (.ok none, [.IMessage { line := 2, id := 1, name := "Alice",
                              tachie := "happy", content := "Hi there" }]) :=
  ⟨rfl, rfl, rfl⟩

/-- C2 (code divergence): the claim expects the top-level walk to visit
every child, passing line 0 to the first and line 1 to the second. On a
root with two comment children the walk dispatches the first child at
line 0 (its segment is persisted) and then aborts with the option-unwrap
error, so the second child is never dispatched: its segment is absent
from the trace. -/
theorem c2_second_child_never_dispatched :
    MusicaParse.parse twoCommentTree 0 =
      (.error .optionNone, [.INonMessage { line := 0, content := ";a" }]) :=
  rfl

/-- C7: `parser_main` enqueues exactly one `DispatchJob` carrying the
job's own path and name if and only if `parse_file` succeeded on the
file; on failure it propagates the error and enqueues nothing. In
particular, on the §8 failure scenario (message line with no numeric id
atom) `parse_file` fails with `BuildError` on `id` and no dispatch job is
enqueued. -/
theorem c7_parse_stage_dispatch :
    (∀ (job : ParserJob) (ast : Except PError (List AstNode)),
      ((parse_file job.file_name ast).1 = .ok () →
        (parser_main job ast).1 = .ok () ∧
        (parser_main job ast).2.2 =
          [{ file_path := job.file_path, file_name := job.file_name }]) ∧
      (∀ e, (parse_file job.file_name ast).1 = .error e →
        (parser_main job ast).1 = .error e ∧
        (parser_main job ast).2.2 = [])) ∧
    ((parse_file "missing_id.sc" (.ok [missingIdTree])).1 =
        .error (.buildError "id") ∧
     (parser_main { file_path := "assets/sc/missing_id.sc",
                    file_name := "missing_id.sc" }
        (.ok [missingIdTree])).2.2 = []) := by
  constructor
  · intro job ast
    rcases hpf : parse_file job.file_name ast with ⟨r, ops⟩
    cases r with
    | ok u =>
      constructor
      · intro _
        simp [parser_main, hpf]
      · intro e he
        simp at he
    | error e0 =>
      constructor
      · intro hok
        simp at hok
      · intro e he
        simp at he
        subst he
        simp [parser_main, hpf]
  · exact ⟨rfl, rfl⟩

/-- C7 (witness): on a grammar output whose root has no children the walk
succeeds and exactly one dispatch job with the file's identity is pushed;
on a grammar failure the handler fails and pushes nothing. -/
theorem c7_parse_stage_dispatch_witness :
    ((parser_main { file_path := "assets/sc/a.sc", file_name := "a.sc" }
        (.ok [.mk .Musica "" .nil])).1 = .ok () ∧
     (parser_main { file_path := "assets/sc/a.sc", file_name := "a.sc" }
        (.ok [.mk .Musica "" .nil])).2.2 =
       [{ file_path := "assets/sc/a.sc", file_name := "a.sc" }]) ∧
    ((parser_main { file_path := "assets/sc/a.sc", file_name := "a.sc" }
        (.error (.parseError "rejected"))).1 =
        .error (.parseError "rejected") ∧
     (parser_main { file_path := "assets/sc/a.sc", file_name := "a.sc" }
        (.error (.parseError "rejected"))).2.2 = []) :=
  ⟨(c7_parse_stage_dispatch.1 { file_path := "assets/sc/a.sc", file_name := "a.sc" }
      (.ok [.mk .Musica "" .nil])).1 rfl,
   (c7_parse_stage_dispatch.1 { file_path := "assets/sc/a.sc", file_name := "a.sc" }
      (.error (.parseError "rejected"))).2 (.parseError "rejected") rfl⟩

/-- C8: for every dispatch job and every prior queue contents,
`dispatch_main` succeeds and appends exactly one analyzer job and exactly
one translator job, each carrying the incoming job's path and name, and
touches nothing else. -/
theorem c8_dispatch_fanout :
    ∀ (job : DispatchJob) (qa : List AnalyzerJob) (qt : List TranslatorJob),
    dispatch_main job qa qt =
      (.ok (),
       qa ++ [{ file_path := job.file_path, file_name := job.file_name }],
       qt ++ [{ file_path := job.file_path, file_name := job.file_name }]) ∧
    (dispatch_main job qa qt).2.1.length = qa.length + 1 ∧
    (dispatch_main job qa qt).2.2.length = qt.length + 1 :=
  fun job qa qt => ⟨rfl, by simp [dispatch_main], by simp [dispatch_main]⟩

/-- C9 (code divergence): the claim says `parse_file` step 1 ensures the
store's record schema exists before the root is dispatched, but the
source only opens the connection (`create_db_connection`) and never calls
`create_table`: the store-effect trace of every `parse_file` run starts
with the open and contains no schema-provisioning operation at all. -/
theorem c9_no_schema_provisioning :
    ∀ (name : String) (ast : Except PError (List AstNode)),
    ∃ inserts : List InsertModel,
      (parse_file name ast).2 =
        .openStore name :: inserts.map StoreOp.insert := by
  intro name ast
  cases ast with
  | error e => exact ⟨[], rfl⟩
  | ok pairs =>
    cases hh : pairs.head? with
    | none => exact ⟨[], by simp [parse_file, create_db_connection, hh]⟩
    | some root =>
      rcases hp : MusicaParse.parse root 0 with ⟨r, tr⟩
      cases r <;>
        exact ⟨tr, by simp [parse_file, create_db_connection, hh, hp]⟩

/-- Supporting fact: on the end-to-end scenario file the concrete store
trace is the open followed by the single insert the aborted walk made —
no `ensureSchema` operation anywhere. -/
theorem scenario_store_trace_has_no_schema_op :
    (parse_file "a.sc" (.ok [scenarioTree])).2 =
      [.openStore "a.sc",
       .insert (.INonMessage { line := 0, content := ";Hello comment" })] ∧
    StoreOp.ensureSchema "a.sc" ∉ (parse_file "a.sc" (.ok [scenarioTree])).2 :=
  ⟨rfl, by decide⟩

/-- C10: a `Message` container node with no child sub-form is silently
skipped: the handler returns success with no fragment, persists nothing
and raises no error, for any node text and any current line. -/
theorem c10_empty_message_container :
    ∀ (text : String) (line : Int),
    MusicaParse.parse (.mk .IMessage text .nil) line = (.ok none, []) :=
  fun _ _ => rfl
